import Mathlib

/-!
Verification of the `poorcal` calculator (src/poorcal/calculator.py).

The source is a stateless class with four binary operations over the host
numeric type. The spec's data model is "real numbers, represented as
floating point"; we embed the operands as rationals `ℚ`, an exact,
computable field, so every arithmetic identity is exact (floating-point
tolerance claims hold with zero error). The division guard `if b == 0`
tests numeric equality, embedded as a decidable test `b = 0` on `ℚ`.
Failure (Python `raise ValueError("The divisor cannot be zero")`) is
embedded as `Except CalcError`: `ValueError` is Python's invalid-argument
error, embedded as the constructor `CalcError.invalidArgument` carrying
the raised message. `add`, `subtract` and `multiply` return a plain `ℚ`
exactly as the source returns unconditionally: they have no failure path.
-/

/-- The single error kind a calculator operation can raise, carrying the
message string exactly as the source raises it. -/
inductive CalcError where
  | invalidArgument (msg : String)
deriving DecidableEq

/-- `Calculator.add`: `return a + b`. -/
def Calculator.add (a b : ℚ) : ℚ := a + b

/-- `Calculator.subtract`: `return a - b`. -/
def Calculator.subtract (a b : ℚ) : ℚ := a - b

/-- `Calculator.multiply`: `return a * b`. -/
def Calculator.multiply (a b : ℚ) : ℚ := a * b

/-- `Calculator.divide`: `if b == 0: raise ValueError("The divisor cannot
be zero")` then `return a / b`. -/
def Calculator.divide (a b : ℚ) : Except CalcError ℚ :=
  if b = 0 then Except.error (CalcError.invalidArgument "The divisor cannot be zero")
  else Except.ok (a / b)

/-- C1: for every input `a`, `divide a 0` fails with an InvalidArgument
error whose message contains "divisor cannot be zero", and no result is
produced (the outcome is `Except.error`, never `Except.ok`). -/
theorem divide_by_zero_fails (a : ℚ) :
    Calculator.divide a 0 =
      Except.error (CalcError.invalidArgument "The divisor cannot be zero") ∧
    List.IsInfix "divisor cannot be zero".data "The divisor cannot be zero".data := by
  refine ⟨by simp [Calculator.divide], ?_⟩
  decide

/-- Witness for C1 at `a = 1`. -/
theorem divide_by_zero_fails_witness :
    Calculator.divide 1 0 =
      Except.error (CalcError.invalidArgument "The divisor cannot be zero") :=
  (divide_by_zero_fails 1).1

/-- C2: for all `a b` with `b ≠ 0`, `divide a b` succeeds with the exact
quotient `a / b`. -/
theorem divide_eq_quotient (a b : ℚ) (h : b ≠ 0) :
    Calculator.divide a b = Except.ok (a / b) := by
  simp [Calculator.divide, h]

/-- Witness for C2: `divide 10 2 = ok 5`. -/
theorem divide_eq_quotient_witness :
    (2 : ℚ) ≠ 0 ∧ Calculator.divide 10 2 = Except.ok 5 :=
  ⟨by norm_num, (divide_eq_quotient 10 2 (by norm_num)).trans (by norm_num)⟩

/-- C3: `divide a b` fails iff `b = 0`; under `b ≠ 0` the error branch is
unreachable. The other three operations return a plain `ℚ` by their type:
they have no failure path at all. -/
theorem divide_fails_iff (a b : ℚ) :
    (∃ e, Calculator.divide a b = Except.error e) ↔ b = 0 := by
  constructor
  · rintro ⟨e, he⟩
    by_contra hb
    simp [Calculator.divide, hb] at he
  · rintro rfl
    exact ⟨_, (divide_by_zero_fails a).1⟩

/-- C4: `add a b = a + b`, and in particular `add 2 3 = 5`. -/
theorem add_eq_sum :
    (∀ a b : ℚ, Calculator.add a b = a + b) ∧ Calculator.add 2 3 = 5 :=
  ⟨fun _ _ => rfl, by norm_num [Calculator.add]⟩

/-- C5: `subtract a b = a - b`, and in particular `subtract 5 3 = 2`. -/
theorem subtract_eq_diff :
    (∀ a b : ℚ, Calculator.subtract a b = a - b) ∧ Calculator.subtract 5 3 = 2 :=
  ⟨fun _ _ => rfl, by norm_num [Calculator.subtract]⟩

/-- C6: `multiply a b = a * b`, and in particular `multiply 4 (5/2) = 10`
(`2.5` is the rational `5/2`). -/
theorem multiply_eq_prod :
    (∀ a b : ℚ, Calculator.multiply a b = a * b) ∧
      Calculator.multiply 4 (5 / 2) = 10 :=
  ⟨fun _ _ => rfl, by norm_num [Calculator.multiply]⟩

/-- C7: `add` and `multiply` are commutative. -/
theorem add_multiply_comm (a b : ℚ) :
    Calculator.add a b = Calculator.add b a ∧
      Calculator.multiply a b = Calculator.multiply b a :=
  ⟨add_comm a b, mul_comm a b⟩

/-- C8: `subtract` is antisymmetric: `subtract a b = -(subtract b a)`. -/
theorem subtract_antisymm (a b : ℚ) :
    Calculator.subtract a b = -(Calculator.subtract b a) :=
  (neg_sub b a).symm

/-- C9: for `b ≠ 0`, `divide (multiply a b) b` recovers `a` exactly (so in
particular within any floating-point tolerance). -/
theorem multiply_divide_roundtrip (a b : ℚ) (h : b ≠ 0) :
    Calculator.divide (Calculator.multiply a b) b = Except.ok a := by
  rw [divide_eq_quotient _ _ h, Calculator.multiply, mul_div_cancel_right₀ a h]

/-- Witness for C9 at `a = 2`, `b = 3`. -/
theorem multiply_divide_roundtrip_witness :
    (3 : ℚ) ≠ 0 ∧ Calculator.divide (Calculator.multiply 2 3) 3 = Except.ok 2 :=
  ⟨by norm_num, multiply_divide_roundtrip 2 3 (by norm_num)⟩

/-- C10: the guard tests numeric equality with zero: for every divisor
numerically equal to zero (including `-0`, which equals `0` in any exact
numeric embedding) and any `a`, `divide` raises the divisor error. -/
theorem divide_guard_numeric_eq (a b : ℚ) (h : b = 0) :
    Calculator.divide a b =
      Except.error (CalcError.invalidArgument "The divisor cannot be zero") :=
  h ▸ (divide_by_zero_fails a).1

/-- Witness for C10 at the negative-zero divisor `-0`. -/
theorem divide_guard_numeric_eq_witness :
    Calculator.divide 7 (-0) =
      Except.error (CalcError.invalidArgument "The divisor cannot be zero") :=
  divide_guard_numeric_eq 7 (-0) (by norm_num)
